import Mathlib

/-
Verification development for the three-station assembly-line simulation
(`src/main.py`, `src/runanalysis.py`, `src/models/{buffer,inspector,workstation}.py`).

The Python sources are shallowly embedded:
* simulated-time instants and sample values become `ℚ` (the program draws
  floats; all claims checked here are structural, so exact rationals stand in
  for the float values),
* numpy float scalars (which can be NaN or ±inf and whose division by zero
  warns instead of raising) become the four-constructor type `NpFloat`,
* buffer levels and put/get amounts become `ℤ`,
* the statistics reductions of `runanalysis.py` become pure row-building
  functions over entity records.
-/

namespace AssemblyLine

/-- Modelled from the spec: `src/models/component.py` is imported by every model
file (`from .component import Component`) but is not among the analyzed sources.
Per the spec's data model, a component type is "one of a small closed set of
kinds (e.g., C1, C2, C3)", immutable, used only as a classification tag; the
sources use `component.name` (a string key) and `component.value` (the numeric
id stored in the `component_id` column). -/
inductive Component where
  | C1
  | C2
  | C3
deriving DecidableEq

/-- Name tag of a component, as used for dictionary keys in the sources. -/
def Component.name : Component → String
  | .C1 => "C1"
  | .C2 => "C2"
  | .C3 => "C3"

/-- Numeric value of a component (enum value, stored in `component_id`). -/
def Component.value : Component → ℕ
  | .C1 => 1
  | .C2 => 2
  | .C3 => 3

/-- A numpy floating-point scalar: a finite rational, an infinity, or NaN.
numpy's true division emits a RuntimeWarning on division by zero but does not
raise, so every operation here is total. -/
inductive NpFloat where
  | fin (q : ℚ)
  | pinf
  | ninf
  | nan
deriving DecidableEq

/-- Subtraction of numpy float scalars (IEEE-754 rules; NaN propagates). -/
def NpFloat.sub : NpFloat → NpFloat → NpFloat
  | .fin a, .fin b => .fin (a - b)
  | .fin _, .pinf => .ninf
  | .fin _, .ninf => .pinf
  | .pinf, .fin _ => .pinf
  | .pinf, .ninf => .pinf
  | .pinf, .pinf => .nan
  | .ninf, .fin _ => .ninf
  | .ninf, .pinf => .ninf
  | .ninf, .ninf => .nan
  | .nan, _ => .nan
  | _, .nan => .nan

/-- Division of numpy float scalars. Division by (positive) zero yields
±inf for a nonzero numerator and NaN for a zero numerator, with a warning
rather than an exception (rationals carry no signed zero; the zeros produced
by the embedded program are +0). -/
def NpFloat.div : NpFloat → NpFloat → NpFloat
  | .fin a, .fin b =>
      if b = 0 then (if a = 0 then .nan else if a > 0 then .pinf else .ninf)
      else .fin (a / b)
  | .fin _, .pinf => .fin 0
  | .fin _, .ninf => .fin 0
  | .pinf, .fin b => if b < 0 then .ninf else .pinf
  | .ninf, .fin b => if b < 0 then .pinf else .ninf
  | .pinf, .pinf => .nan
  | .pinf, .ninf => .nan
  | .ninf, .pinf => .nan
  | .ninf, .ninf => .nan
  | .nan, _ => .nan
  | _, .nan => .nan

/-- Mean of a numpy array built from a list of samples: `arr.mean()`.
numpy returns NaN (with a warning) on an empty array. -/
def npMean (l : List ℚ) : NpFloat :=
  if l.isEmpty then NpFloat.nan else NpFloat.fin (l.sum / (l.length : ℚ))

/-- Population variance of a numpy array: `arr.var()` (numpy default ddof=0). -/
def npVar (l : List ℚ) : NpFloat :=
  if l.isEmpty then NpFloat.nan
  else NpFloat.fin ((l.map (fun x => (x - l.sum / (l.length : ℚ)) ^ 2)).sum / (l.length : ℚ))

/-- Composite of `arr[arr == 0] = np.nan` followed by `np.nanmean(arr)`:
the mean of the nonzero entries, NaN when every entry is zero (or the array
is empty), since `nanmean` of an all-NaN array is NaN (with a warning). -/
def npNanmeanNonzero (l : List ℚ) : NpFloat :=
  let nonzero := l.filter (fun x => x != 0)
  if nonzero.isEmpty then NpFloat.nan
  else NpFloat.fin (nonzero.sum / (nonzero.length : ℚ))

/-- A value stored into a pandas Series cell by `runanalysis.py`: either a
plain numpy scalar, or the 1-tuple `(np.nan,)` produced by the trailing commas
in `mean = np.nan,` / `variance = np.nan,` (runanalysis.py lines 43-44 and
139-140). -/
inductive PyVal where
  | num (x : NpFloat)
  | tuple1 (x : NpFloat)
deriving DecidableEq

/-- Effect of `pd.to_numeric(v, errors='coerce')` on the two value shapes the
sources feed it: a scalar passes through, and the 1-tuple `(np.nan,)` is
coerced elementwise to its NaN content (runanalysis.py lines 157-158). -/
def pd_to_numeric_coerce : PyVal → NpFloat
  | .num x => x
  | .tuple1 x => x

/-- A `simpy.Container` as subclassed by `Buffer` (`src/models/buffer.py`):
a bounded counter plus FIFO queues of pending (blocked) put and get requests.
`put_queue`/`get_queue` hold the amounts of the blocked requests in arrival
order; in every call site of this program the amount is 1. -/
structure Buffer where
  id : String
  accepts : Component
  capacity : ℤ
  level : ℤ
  put_queue : List ℤ
  get_queue : List ℤ
deriving DecidableEq

/-- Test if this buffer will accept a certain component type
(`Buffer.will_accept`). -/
def Buffer.will_accept (b : Buffer) (component : Component) : Bool :=
  component == b.accepts

/-- simpy `Container._trigger_put`: walk the pending put queue in FIFO order,
completing each request whose amount fits (`capacity - level >= amount`,
`Container._do_put`), and stop at the first request that does not fit.
Returns the new level, the remaining queue, and the total amount deposited by
the completed requests. -/
def trigger_put (capacity : ℤ) : ℤ → List ℤ → ℤ × List ℤ × ℤ
  | level, [] => (level, [], 0)
  | level, n :: rest =>
      if capacity - level ≥ n then
        let r := trigger_put capacity (level + n) rest
        (r.1, r.2.1, r.2.2 + n)
      else (level, n :: rest, 0)

/-- simpy `Container._trigger_get`: walk the pending get queue in FIFO order,
completing each request that is satisfiable (`level >= amount`,
`Container._do_get`), and stop at the first that is not. Returns the new
level, the remaining queue, and the total amount withdrawn. -/
def trigger_get : ℤ → List ℤ → ℤ × List ℤ × ℤ
  | level, [] => (level, [], 0)
  | level, n :: rest =>
      if level ≥ n then
        let r := trigger_get (level - n) rest
        (r.1, r.2.1, r.2.2 + n)
      else (level, n :: rest, 0)

/-- `Container.put(amount)`: the request joins the put queue and the queue is
triggered; each completed put then triggers the get queue (simpy wires
`_trigger_get` as a callback of a succeeded put event). With the unit amounts
this program uses, at most one of the two queues is ever nonempty (a blocked
unit put means the buffer is full, so no unit get can be blocked, and vice
versa), so one cross-trigger round is exact. Returns the updated buffer and
the amount deposited by put requests completed during the call. -/
def Buffer.put_tr (b : Buffer) (amount : ℤ) : Buffer × ℤ :=
  let p := trigger_put b.capacity b.level (b.put_queue ++ [amount])
  let g := trigger_get p.1 b.get_queue
  ({ b with level := g.1, put_queue := p.2.1, get_queue := g.2.1 }, p.2.2)

/-- `Container.put(amount)`, buffer part. -/
def Buffer.put (b : Buffer) (amount : ℤ) : Buffer :=
  (b.put_tr amount).1

/-- `Container.get(amount)`: the request joins the get queue and the queue is
triggered; each completed get then triggers the put queue (freed capacity
wakes blocked puts, simpy wires `_trigger_put` as a callback of a succeeded
get event). Returns the updated buffer and the amount deposited by pending
put requests completed during the call. -/
def Buffer.get_tr (b : Buffer) (amount : ℤ) : Buffer × ℤ :=
  let g := trigger_get b.level (b.get_queue ++ [amount])
  let p := trigger_put b.capacity g.1 b.put_queue
  ({ b with level := p.1, put_queue := p.2.1, get_queue := g.2.1 }, p.2.2)

/-- `Container.get(amount)`, buffer part. -/
def Buffer.get (b : Buffer) (amount : ℤ) : Buffer :=
  (b.get_tr amount).1

/-- One blocking buffer operation issued by an inspector (`put`) or a
workstation (`get`); every call site in the sources passes `amount=1`. -/
inductive BufOp where
  | put (n : ℤ)
  | get (n : ℤ)
deriving DecidableEq

/-- Amount carried by a buffer operation. -/
def BufOp.amount : BufOp → ℤ
  | .put n => n
  | .get n => n

/-- Apply one operation to a buffer. -/
def Buffer.apply (b : Buffer) : BufOp → Buffer
  | .put n => b.put n
  | .get n => b.get n

/-- Apply a sequence of put/get operations in order. -/
def Buffer.applyOps (b : Buffer) (ops : List BufOp) : Buffer :=
  ops.foldl Buffer.apply b

/-- The buffer scan of `Inspector.add_component_to_buffer_original_routing`
(inspector.py lines 64-67): `most_empty_buffer = self.buffers[0]`, then one
pass over the (whole) buffer list replacing the candidate whenever a strictly
lower level is seen. `none` models the IndexError Python would raise on an
empty buffer list. -/
def most_empty_buffer (buffers : List Buffer) : Option Buffer :=
  match buffers with
  | [] => none
  | b :: t => some ((b :: t).foldl (fun acc x => if x.level < acc.level then x else acc) b)

/-- Apply `f` to the first list element satisfying `p`, leaving the rest
unchanged: Python's mutation of the single selected buffer object, expressed
on the list of buffer states. -/
def replace_first (p : Buffer → Bool) (f : Buffer → Buffer) : List Buffer → List Buffer
  | [] => []
  | x :: xs => if p x then f x :: xs else x :: replace_first p f xs

/-- How a call of a routing policy left the inspector process. -/
inductive RouteOutcome where
  | waiting_any
  | put_direct (id : String)
  | put_first_match (id : String)
  | dropped
deriving DecidableEq

/-- `Inspector.add_component_to_buffer_original_routing` (inspector.py lines
56-95). For `Component.C1`: select the buffer with the least level
(`most_empty_buffer`); if it is at capacity (so every candidate is full),
issue `put(amount=1)` against EVERY candidate buffer and suspend on
`env.any_of` of those events (`RouteOutcome.waiting_any`); otherwise put
directly into the selected buffer. The selected buffer is the first one whose
level equals the minimum, which is exactly the object the scan returned.
For other components: put into the first buffer whose `will_accept` matches,
or do nothing when none matches. `none` models the IndexError on an empty
buffer list in the C1 branch. -/
def add_component_to_buffer_original_routing (buffers : List Buffer)
    (component : Component) : Option (List Buffer × RouteOutcome) :=
  if component = Component.C1 then
    match most_empty_buffer buffers with
    | none => none
    | some most_empty =>
        if most_empty.level == most_empty.capacity then
          some (buffers.map (fun b => b.put 1), RouteOutcome.waiting_any)
        else
          some (replace_first (fun b => b.level == most_empty.level) (fun b => b.put 1) buffers,
                RouteOutcome.put_direct most_empty.id)
  else
    match buffers.filter (fun b => b.will_accept component) with
    | [] => some (buffers, RouteOutcome.dropped)
    | m :: _ =>
        some (replace_first (fun b => b.will_accept component) (fun b => b.put 1) buffers,
              RouteOutcome.put_first_match m.id)

/-- Least level occurring in a buffer list (`none` on the empty list). -/
def min_buffer_level : List Buffer → Option ℤ
  | [] => none
  | b :: t => some (t.foldl (fun m x => min m x.level) b.level)

/-- The selection the spec describes for the priority policy, written from the
spec's words: "scan the ordered buffer list and select the buffer with the
lowest current level; ties resolve to the earliest buffer in priority order" —
i.e. the first buffer in the list whose level equals the minimum level. -/
def select_lowest_level_spec (buffers : List Buffer) : Option Buffer :=
  match min_buffer_level buffers with
  | none => none
  | some m => buffers.find? (fun b => b.level == m)

/-- A `Workstation` (`src/models/workstation.py` lines 13-28): the fields
assigned in `__init__`. `env` (the simpy environment handle) is omitted;
`buffers` is kept as the list of buffer ids. `end` is a Lean keyword, so
the Python attribute `end` is rendered `end_`. There is no
`component_finish_times` field: no statement in workstation.py (nor anywhere
else in the sources) ever assigns that attribute. -/
structure Workstation where
  id : ℕ
  buffers : List String
  mean : ℚ
  start_recording : ℚ
  total_amount_assembled : ℕ
  wait_time : List ℚ
  processing_time : List ℚ
  wait : ℚ
  start : ℚ
  end_ : ℚ
deriving DecidableEq

/-- The attribute names a `Workstation` instance carries: exactly those
assigned in `__init__` (workstation.py lines 16-28); the methods only
re-assign attributes from this set. -/
def workstationAttrNames : List String :=
  ["id", "env", "buffers", "mean", "start_recording", "total_amount_assembled",
   "wait_time", "processing_time", "wait", "start", "end"]

/-- One row of `calc_stats_workstation`: the `pd.Series` built at
runanalysis.py lines 70-79, one per workstation per iteration. -/
structure WorkstationRow where
  iteration : ℕ
  workstation_id : ℕ
  processing_time_mean : PyVal
  processing_time_variance : PyVal
  throughput : ℕ
  total_idle_time : NpFloat
  utilization : NpFloat
  average_idle_length : NpFloat
deriving DecidableEq

/-- Row of `calc_stats_workstation` for one workstation (runanalysis.py lines
35-79). Zero-assembled branch (lines 39-48): mean and variance are the
1-tuples `(np.nan,)` (trailing commas in the source), throughput 0,
`total_idle_time = (sim_duration - start_recording) - workstation.start`,
utilization 0, and `average_idle_length` the same expression as the idle
time. Otherwise (lines 50-68): sample mean/population variance of the
processing times, throughput = completed count, total idle = sum of the wait
samples, `utilization = ((sim_duration - start_recording) - total_idle_time)
/ (sim_duration - start_recording)` (numpy float division: no exception,
±inf or NaN on a zero window), and average idle length the nanmean of the
wait samples after zeros are replaced by NaN. -/
def calc_stats_workstation_row (workstation : Workstation) (iteration : ℕ)
    (sim_duration start_recording : ℚ) : WorkstationRow :=
  if workstation.total_amount_assembled = 0 then
    { iteration := iteration
      workstation_id := workstation.id
      processing_time_mean := PyVal.tuple1 NpFloat.nan
      processing_time_variance := PyVal.tuple1 NpFloat.nan
      throughput := 0
      total_idle_time := NpFloat.fin ((sim_duration - start_recording) - workstation.start)
      utilization := NpFloat.fin 0
      average_idle_length := NpFloat.fin ((sim_duration - start_recording) - workstation.start) }
  else
    let total_idle_time := workstation.wait_time.sum
    { iteration := iteration
      workstation_id := workstation.id
      processing_time_mean := PyVal.num (npMean workstation.processing_time)
      processing_time_variance := PyVal.num (npVar workstation.processing_time)
      throughput := workstation.total_amount_assembled
      total_idle_time := NpFloat.fin total_idle_time
      utilization :=
        NpFloat.div (NpFloat.fin ((sim_duration - start_recording) - total_idle_time))
          (NpFloat.fin (sim_duration - start_recording))
      average_idle_length := npNanmeanNonzero workstation.wait_time }

/-- `calc_stats_workstation` (runanalysis.py lines 14-83): one row per
workstation of the list. -/
def calc_stats_workstation (workstation_list : List Workstation) (iteration : ℕ)
    (sim_duration start_recording : ℚ) : List WorkstationRow :=
  workstation_list.map
    (fun workstation => calc_stats_workstation_row workstation iteration sim_duration start_recording)

/-- `calc_stats_workstation` together with the workstation records as they
stand after the call. The only in-place write of the function,
`wait_time[wait_time == 0] = np.nan` (line 67), targets the array created by
`np.asarray(workstation.wait_time)` (line 60); `np.asarray` applied to a
Python list allocates a fresh array, so the entities' accumulator lists are
returned unchanged. -/
def calc_stats_workstation_step (workstation_list : List Workstation) (iteration : ℕ)
    (sim_duration start_recording : ℚ) : List WorkstationRow × List Workstation :=
  (calc_stats_workstation workstation_list iteration sim_duration start_recording,
   workstation_list)

/-- An `Inspector` (`src/models/inspector.py` lines 10-27): the fields
assigned in `__init__`, with `env` omitted and `buffers` kept as buffer ids.
The per-component dictionaries `inspection_times` and
`total_amount_inspected` are keyed by the names of exactly the inspector's
`components`; the sources only ever index them at those keys, so they are
rendered as total functions on `Component`. -/
structure Inspector where
  id : ℕ
  components : List Component
  buffers : List String
  means : List (Component × ℚ)
  start_recording : ℚ
  current_inspection_time : Option ℚ
  current_component : Option Component
  start : ℚ
  end_ : ℚ
  wait_time : List ℚ
  inspection_times : Component → List ℚ
  total_amount_inspected : Component → ℕ

/-- One row of `calc_stats_inspector`: the `pd.Series` built at
runanalysis.py lines 153-163, one per (inspector, component) pair per
iteration. Mean and variance are stored through
`pd.to_numeric(..., errors='coerce')`, so they appear as plain numpy
scalars here. -/
structure InspectorRow where
  iteration : ℕ
  inspector_id : ℕ
  component_id : ℕ
  component_inspection_time_mean : NpFloat
  component_inspection_time_variance : NpFloat
  component_throughput : ℕ
  total_idle_time : NpFloat
  utilization : NpFloat
  average_idle_length : NpFloat
deriving DecidableEq

/-- Row of `calc_stats_inspector` for one inspector and one of its components
(runanalysis.py lines 111-163). Common per-inspector values (lines 115-129):
total idle = sum of the wait samples, `utilization = ((sim_duration -
start_recording) - total_idle_time) / (sim_duration - start_recording)`, and
average idle length = nanmean of the wait samples with zeros replaced by NaN
when some sample is nonzero, NaN otherwise. Per-component values (lines
133-150): `(np.nan,)` tuples (coerced to NaN by `pd.to_numeric`) and
throughput 0 when the per-component completed count is zero, else sample
mean/population variance of that component's inspection times and
throughput = the completed count. -/
def calc_stats_inspector_row (inspector : Inspector) (iteration : ℕ)
    (sim_duration start_recording : ℚ) (component : Component) : InspectorRow :=
  let total_idle_time := inspector.wait_time.sum
  let utilization :=
    NpFloat.div (NpFloat.fin ((sim_duration - start_recording) - total_idle_time))
      (NpFloat.fin (sim_duration - start_recording))
  let average_idle_length :=
    if inspector.wait_time.any (fun x => x != 0) then npNanmeanNonzero inspector.wait_time
    else NpFloat.nan
  if inspector.total_amount_inspected component = 0 then
    { iteration := iteration
      inspector_id := inspector.id
      component_id := component.value
      component_inspection_time_mean := pd_to_numeric_coerce (PyVal.tuple1 NpFloat.nan)
      component_inspection_time_variance := pd_to_numeric_coerce (PyVal.tuple1 NpFloat.nan)
      component_throughput := 0
      total_idle_time := NpFloat.fin total_idle_time
      utilization := utilization
      average_idle_length := average_idle_length }
  else
    { iteration := iteration
      inspector_id := inspector.id
      component_id := component.value
      component_inspection_time_mean :=
        pd_to_numeric_coerce (PyVal.num (npMean (inspector.inspection_times component)))
      component_inspection_time_variance :=
        pd_to_numeric_coerce (PyVal.num (npVar (inspector.inspection_times component)))
      component_throughput := inspector.total_amount_inspected component
      total_idle_time := NpFloat.fin total_idle_time
      utilization := utilization
      average_idle_length := average_idle_length }

/-- Rows of `calc_stats_inspector` contributed by one inspector: one per
component of that inspector, in component order (the inner loop at
runanalysis.py line 133). -/
def calc_stats_inspector_rows (inspector : Inspector) (iteration : ℕ)
    (sim_duration start_recording : ℚ) : List InspectorRow :=
  inspector.components.map
    (calc_stats_inspector_row inspector iteration sim_duration start_recording)

/-- `calc_stats_inspector` (runanalysis.py lines 86-169): rows of every
inspector of the list, concatenated in order. -/
def calc_stats_inspector (inspector_list : List Inspector) (iteration : ℕ)
    (sim_duration start_recording : ℚ) : List InspectorRow :=
  (inspector_list.map
    (fun inspector => calc_stats_inspector_rows inspector iteration sim_duration start_recording)).flatten

/-- `calc_stats_inspector` together with the inspector records as they stand
after the call. As in the workstation case, the zero-to-NaN write at line 125
hits the array freshly allocated by `np.asarray(inspector.wait_time)`
(line 115), so the entities' accumulator lists are returned unchanged. -/
def calc_stats_inspector_step (inspector_list : List Inspector) (iteration : ℕ)
    (sim_duration start_recording : ℚ) : List InspectorRow × List Inspector :=
  (calc_stats_inspector inspector_list iteration sim_duration start_recording,
   inspector_list)

/-- `error_criterion` column of `calculate_workstation_replications`
(runanalysis.py line 262): `row['mean'] * criterion_percentage`. -/
def error_criterion (mean criterion_percentage : ℚ) : ℚ :=
  mean * criterion_percentage

/-- `num_replications` column of `calculate_workstation_replications`
(runanalysis.py line 263):
`((std_dev * stats.norm.ppf(1-(0.05/2))) / error_criterion) ** 2`.
The external scipy inverse normal CDF is passed in as `norm_ppf`. -/
def num_replications (norm_ppf : ℚ → ℚ) (mean std_dev criterion_percentage : ℚ) : ℚ :=
  ((std_dev * norm_ppf (1 - 5 / 100 / 2)) / error_criterion mean criterion_percentage) ^ 2

/-- The spec's replication-sizing formula, written from the spec's words:
`error_criterion = ε · mean`; `required_R = (std_dev · z / error_criterion)²`
where `z` is the inverse normal CDF at `1 − α/2`. -/
def required_R_spec (z mean std_dev eps : ℚ) : ℚ :=
  ((std_dev * z) / (eps * mean)) ^ 2

/-- `BUFFER_SIZE` (main.py line 18). -/
def BUFFER_SIZE : ℤ := 2

/-- The configuration a single `run_iteration` call depends on: its `seed`,
`means` and `iteration` arguments, and the module globals `SIM_TIME` and
`START_RECORDING` set by the argument parser. The `means` dictionary carries
one mean per component name and per workstation (main.py `init_means`). -/
structure RunConfig where
  seed : ℕ
  meansC1 : ℚ
  meansC2 : ℚ
  meansC3 : ℚ
  means_ws1 : ℚ
  means_ws2 : ℚ
  means_ws3 : ℚ
  sim_time : ℚ
  start_recording : ℚ
  iteration : ℕ

/-- The entities one replication owns: the five buffers, three workstations
and two inspectors wired in `run_iteration` (main.py lines 127-163). -/
structure SimEntities where
  b1c1 : Buffer
  b2c1 : Buffer
  b2c2 : Buffer
  b3c1 : Buffer
  b3c3 : Buffer
  w1 : Workstation
  w2 : Workstation
  w3 : Workstation
  inspector_one : Inspector
  inspector_two : Inspector

/-- Fresh buffer as constructed in `run_iteration`: capacity `BUFFER_SIZE`,
`init=0`, no pending requests. -/
def mkBuffer (id : String) (accepts : Component) : Buffer :=
  { id := id, accepts := accepts, capacity := BUFFER_SIZE, level := 0,
    put_queue := [], get_queue := [] }

/-- Fresh workstation as constructed in `Workstation.__init__`
(workstation.py lines 14-28). -/
def mkWorkstation (id : ℕ) (buffers : List String) (mean : ℚ)
    (start_recording : ℚ) : Workstation :=
  { id := id, buffers := buffers, mean := mean, start_recording := start_recording,
    total_amount_assembled := 0, wait_time := [], processing_time := [],
    wait := 0, start := 0, end_ := 0 }

/-- Fresh inspector as constructed in `Inspector.__init__` (inspector.py
lines 11-27): empty accumulators, dictionaries keyed by the inspector's
components initialised to empty list / zero. -/
def mkInspector (id : ℕ) (components : List Component) (buffers : List String)
    (means : List (Component × ℚ)) (start_recording : ℚ) : Inspector :=
  { id := id, components := components, buffers := buffers, means := means,
    start_recording := start_recording, current_inspection_time := none,
    current_component := none, start := 0, end_ := 0, wait_time := [],
    inspection_times := fun _ => [], total_amount_inspected := fun _ => 0 }

/-- The fresh entity graph `run_iteration` builds before running the clock
(main.py lines 127-163): five buffers of capacity `BUFFER_SIZE`, workstations
1-3 wired to their required buffers, inspector 1 handling C1 over the three
C1 buffers in priority order, inspector 2 handling C2 and C3. -/
def mkRunEntities (cfg : RunConfig) : SimEntities :=
  { b1c1 := mkBuffer "w1c1" Component.C1
    b2c1 := mkBuffer "w2c1" Component.C1
    b2c2 := mkBuffer "w2c2" Component.C2
    b3c1 := mkBuffer "w3c1" Component.C1
    b3c3 := mkBuffer "w3c3" Component.C3
    w1 := mkWorkstation 1 ["w1c1"] cfg.means_ws1 cfg.start_recording
    w2 := mkWorkstation 2 ["w2c1", "w2c2"] cfg.means_ws2 cfg.start_recording
    w3 := mkWorkstation 3 ["w3c1", "w3c3"] cfg.means_ws3 cfg.start_recording
    inspector_one :=
      mkInspector 1 [Component.C1] ["w1c1", "w2c1", "w3c1"]
        [(Component.C1, cfg.meansC1)] cfg.start_recording
    inspector_two :=
      mkInspector 2 [Component.C2, Component.C3] ["w2c2", "w3c3"]
        [(Component.C2, cfg.meansC2), (Component.C3, cfg.meansC3)] cfg.start_recording }

/-- The module-level mutable state `run_iteration` touches: the state of the
global `random` generator (abstracted to a natural number; `random.seed(s)`
makes it a function of `s` alone) and the module-level accumulator lists of
main.py lines 25-33. -/
structure SimGlobals where
  rng_state : ℕ
  w1_wait_time : List (List ℚ)
  w2_wait_time : List (List ℚ)
  w3_wait_time : List (List ℚ)
  w1_processing_time : List (List ℚ)
  w2_processing_time : List (List ℚ)
  w3_processing_time : List (List ℚ)
  workstation_finishing_times : List (ℕ × List ℚ)

/-- A Python exception surfaced by the embedded code. -/
inductive PyError where
  | attributeError (className attr : String)
deriving DecidableEq

/-- `run_iteration` (main.py lines 107-210), parameterized by `simulate`, the
external simpy event loop (`main_env.run(until=SIM_TIME)` driving the five
registered processes): a deterministic function of the seeded random stream
and the fresh entity graph, per the scheduler contract that resumptions at
one instant happen in registration order. The call seeds the global RNG from
its `seed` argument (line 120), builds fresh entities, runs the clock,
appends the wait/processing histories to the module-level lists (lines
179-185), then evaluates `w1.component_finish_times` (line 191). Python
resolves such an access through the instance and class attribute sets, and
`component_finish_times` is in neither, so the access raises AttributeError;
the per-run statistics calls (lines 197-210) sit after that statement.
Returns the updated module state and either the AttributeError or the
(workstation, inspector) summary rows. -/
def run_iteration (simulate : ℕ → SimEntities → SimEntities) (cfg : RunConfig)
    (g : SimGlobals) : SimGlobals × Except PyError (List WorkstationRow × List InspectorRow) :=
  let g1 := { g with rng_state := cfg.seed }
  let s := simulate cfg.seed (mkRunEntities cfg)
  let g2 := { g1 with
    w1_wait_time := g1.w1_wait_time ++ [s.w1.wait_time]
    w2_wait_time := g1.w2_wait_time ++ [s.w2.wait_time]
    w3_wait_time := g1.w3_wait_time ++ [s.w3.wait_time]
    w1_processing_time := g1.w1_processing_time ++ [s.w1.processing_time]
    w2_processing_time := g1.w2_processing_time ++ [s.w2.processing_time]
    w3_processing_time := g1.w3_processing_time ++ [s.w3.processing_time] }
  if workstationAttrNames.contains "component_finish_times" then
    (g2,
     Except.ok
       (calc_stats_workstation [s.w1, s.w2, s.w3] cfg.iteration cfg.sim_time cfg.start_recording,
        calc_stats_inspector [s.inspector_one, s.inspector_two] cfg.iteration cfg.sim_time
          cfg.start_recording))
  else
    (g2, Except.error (PyError.attributeError "Workstation" "component_finish_times"))

/-- The per-run summary rows of main.py lines 197-210: the Statistics Engine
applied to the histories the run produced. `ambient_rng` is the state of the
global random generator on entry; `random.seed(seed)` (line 120) overwrites
it before any draw, so it is received only to be discarded, mirroring the
runtime. -/
def per_run_summary (simulate : ℕ → SimEntities → SimEntities) (cfg : RunConfig)
    (ambient_rng : ℕ) : List WorkstationRow × List InspectorRow :=
  let rng := cfg.seed
  let _ := ambient_rng
  let s := simulate rng (mkRunEntities cfg)
  (calc_stats_workstation [s.w1, s.w2, s.w3] cfg.iteration cfg.sim_time cfg.start_recording,
   calc_stats_inspector [s.inspector_one, s.inspector_two] cfg.iteration cfg.sim_time
     cfg.start_recording)

/-- Well-formedness of a buffer state: the level is within `[0, capacity]`
and every queued request amount is nonnegative (every request the program
issues has amount 1). -/
def BufferInv (b : Buffer) : Prop :=
  0 ≤ b.level ∧ b.level ≤ b.capacity ∧
    (∀ n ∈ b.put_queue, 0 ≤ n) ∧ (∀ n ∈ b.get_queue, 0 ≤ n)

/-- A candidate buffer of inspector 1 at capacity (`BUFFER_SIZE = 2`,
level 2), with no pending requests. -/
def race_full_buffer (id : String) : Buffer :=
  { id := id, accepts := Component.C1, capacity := 2, level := 2,
    put_queue := [], get_queue := [] }

/-- A workstation that started an assembly at simulated time 5 but recorded
no completed assembly: `start` was set by `Workstation.assemble` and
`total_amount_assembled` stayed 0. -/
def c4_workstation : Workstation :=
  { id := 1, buffers := ["w1c1"], mean := 3, start_recording := 10,
    total_amount_assembled := 0, wait_time := [], processing_time := [],
    wait := 5, start := 5, end_ := 0 }

/-- An inspector with one recorded wait sample and no completed inspections
for any component. -/
def c4_inspector : Inspector :=
  { id := 2, components := [Component.C2, Component.C3], buffers := ["w2c2", "w3c3"],
    means := [(Component.C2, 1), (Component.C3, 1)], start_recording := 10,
    current_inspection_time := none, current_component := none, start := 0, end_ := 0,
    wait_time := [2], inspection_times := fun _ => [],
    total_amount_inspected := fun _ => 0 }

/-- A workstation with one completed assembly and total wait 1, evaluated on
a run whose horizon equals the warm-up cutoff. -/
def c5_workstation : Workstation :=
  { id := 1, buffers := ["w1c1"], mean := 3, start_recording := 10,
    total_amount_assembled := 1, wait_time := [1], processing_time := [2],
    wait := 0, start := 8, end_ := 10 }

/-- An inspector with one completed C2 inspection and total wait 1. -/
def c5_inspector : Inspector :=
  { id := 2, components := [Component.C2, Component.C3], buffers := ["w2c2", "w3c3"],
    means := [(Component.C2, 1), (Component.C3, 1)], start_recording := 10,
    current_inspection_time := some 2, current_component := some Component.C2,
    start := 0, end_ := 1, wait_time := [1],
    inspection_times := fun c => if c = Component.C2 then [2] else [],
    total_amount_inspected := fun c => if c = Component.C2 then 1 else 0 }

/-- A workstation whose single completed cycle waited from time 0 to 15 and
processed from 15 to 16, recorded because 16 is past the warm-up cutoff 10:
its one wait sample (15) exceeds the post-warm-up window (20 - 10 = 10). -/
def c8_workstation : Workstation :=
  { id := 1, buffers := ["w1c1"], mean := 3, start_recording := 10,
    total_amount_assembled := 1, wait_time := [15], processing_time := [1],
    wait := 0, start := 15, end_ := 16 }

/-- A workstation with an in-window wait total (3 of a window of 10). -/
def c8_ok_workstation : Workstation :=
  { id := 1, buffers := ["w1c1"], mean := 3, start_recording := 10,
    total_amount_assembled := 1, wait_time := [3], processing_time := [2],
    wait := 0, start := 13, end_ := 15 }

/-- An inspector with an in-window wait total. -/
def c8_ok_inspector : Inspector :=
  { id := 2, components := [Component.C2, Component.C3], buffers := ["w2c2", "w3c3"],
    means := [(Component.C2, 1), (Component.C3, 1)], start_recording := 10,
    current_inspection_time := some 2, current_component := some Component.C2,
    start := 11, end_ := 12, wait_time := [1],
    inspection_times := fun c => if c = Component.C2 then [2] else [],
    total_amount_inspected := fun c => if c = Component.C2 then 1 else 0 }

/-- C10: for every configuration and every behaviour of the external event
loop, `run_iteration` ends in the AttributeError from reading
`component_finish_times` off a `Workstation` — an attribute the class never
defines (first conjunct) — so the per-run statistics in the success branch
are never computed. -/
theorem run_iteration_raises_attribute_error (simulate : ℕ → SimEntities → SimEntities)
    (cfg : RunConfig) (g : SimGlobals) :
    workstationAttrNames.contains "component_finish_times" = false ∧
    (run_iteration simulate cfg g).2 =
      Except.error (PyError.attributeError "Workstation" "component_finish_times") := by
  exact ⟨rfl, rfl⟩

/-- C3: the outcome of `run_iteration` for a fixed (seed, means, horizon,
warm-up, iteration) configuration is independent of all module-level mutable
state — the incoming global RNG state (overwritten by `random.seed(seed)`)
and the accumulator lists left over from earlier iterations — so two runs
with the same configuration produce identical outputs; likewise the summary
rows the Statistics Engine derives from the run are a function of the
configuration alone. -/
theorem run_iteration_deterministic (simulate : ℕ → SimEntities → SimEntities)
    (cfg : RunConfig) (g g' : SimGlobals) (r r' : ℕ) :
    (run_iteration simulate cfg g).2 = (run_iteration simulate cfg g').2 ∧
    per_run_summary simulate cfg r = per_run_summary simulate cfg r' := by
  exact ⟨rfl, rfl⟩

/-- C9: running the per-run statistics reduction a second time over the same
entity records yields exactly the rows of the first run, and the reduction
leaves the entities' accumulated wait-time and processing-time samples
unchanged (the zero-to-NaN write targets the array `np.asarray` freshly
allocated from the Python list, not the list itself). -/
theorem calc_stats_idempotent (workstation_list : List Workstation)
    (inspector_list : List Inspector) (iteration : ℕ)
    (sim_duration start_recording : ℚ) :
    (calc_stats_workstation_step
        (calc_stats_workstation_step workstation_list iteration sim_duration start_recording).2
        iteration sim_duration start_recording).1 =
      (calc_stats_workstation_step workstation_list iteration sim_duration start_recording).1 ∧
    (calc_stats_workstation_step workstation_list iteration sim_duration start_recording).2 =
      workstation_list ∧
    (calc_stats_inspector_step
        (calc_stats_inspector_step inspector_list iteration sim_duration start_recording).2
        iteration sim_duration start_recording).1 =
      (calc_stats_inspector_step inspector_list iteration sim_duration start_recording).1 ∧
    (calc_stats_inspector_step inspector_list iteration sim_duration start_recording).2 =
      inspector_list := by
  exact ⟨rfl, rfl, rfl, rfl⟩

/-- C7: the `num_replications` column computes
`(std_dev · z / (criterion_percentage · mean))²` with `z` the inverse normal
CDF evaluated at `1 − 0.05/2` (the spec's `required_R` formula), and at
mean 10, std_dev 2, criterion 0.01 with `z = 1.96` it evaluates to 1536.64,
within 0.1 of the spec's ≈1536.6. -/
theorem num_replications_matches_spec :
    (∀ (norm_ppf : ℚ → ℚ) (mean std_dev criterion_percentage : ℚ),
        num_replications norm_ppf mean std_dev criterion_percentage =
          required_R_spec (norm_ppf (1 - 5 / 100 / 2)) mean std_dev criterion_percentage) ∧
    num_replications (fun _ => 49 / 25) 10 2 (1 / 100) = 153664 / 100 ∧
    |(153664 : ℚ) / 100 - 15366 / 10| < 1 / 10 := by
  refine ⟨?_, ?_, ?_⟩
  · intro norm_ppf mean std_dev criterion_percentage
    unfold num_replications required_R_spec error_criterion
    ring
  · norm_num [num_replications, error_criterion]
  · norm_num [abs_lt]

/-- C1: with every candidate buffer at capacity, the priority routing issues
`put(1)` against all three buffers, leaving one pending put queued on each
(first conjunct, outcome `waiting_any`). A later `get(1)` on w1c1 completes
its queued put — this resolves the `any_of` race (second conjunct). The
routing never retracts the other requests, so a later `get(1)` on w2c1 also
completes the queued losing put there: its level returns to 2 and the
deposited amount is 1 (third conjunct) — a losing put deposits an extra unit
after the race is decided, although the inspector routed only one component. -/
theorem losing_put_deposits_after_race :
    add_component_to_buffer_original_routing
        [race_full_buffer "w1c1", race_full_buffer "w2c1", race_full_buffer "w3c1"]
        Component.C1 =
      some ([{ race_full_buffer "w1c1" with put_queue := [1] },
             { race_full_buffer "w2c1" with put_queue := [1] },
             { race_full_buffer "w3c1" with put_queue := [1] }],
            RouteOutcome.waiting_any) ∧
    Buffer.get_tr { race_full_buffer "w1c1" with put_queue := [1] } 1 =
      ({ race_full_buffer "w1c1" with put_queue := [] }, 1) ∧
    Buffer.get_tr { race_full_buffer "w2c1" with put_queue := [1] } 1 =
      ({ race_full_buffer "w2c1" with put_queue := [] }, 1) := by
  refine ⟨rfl, rfl, rfl⟩

/-- C4 counterexample: a workstation with zero completed assemblies whose
`start` timestamp is 5 yields, for horizon 20 and warm-up 10,
`total_idle_time = (20 - 10) - 5 = 5`, not the full post-warm-up window 10
the claim asserts. -/
theorem zero_cycle_idle_time_counterexample :
    (calc_stats_workstation_row c4_workstation 0 20 10).total_idle_time =
      NpFloat.fin 5 ∧
    (calc_stats_workstation_row c4_workstation 0 20 10).total_idle_time ≠
      NpFloat.fin (20 - 10) := by
  constructor
  · norm_num [calc_stats_workstation_row, c4_workstation]
  · norm_num [calc_stats_workstation_row, c4_workstation]

/-- C5 counterexample: with horizon = warm-up = 10 and a completed cycle with
total wait 1, the reported utilization is `-inf` (numpy's `(0 - 1) / 0`), not
NaN as the claim asserts (the computation indeed does not raise). -/
theorem zero_window_counterexample :
    (calc_stats_workstation_row c5_workstation 0 10 10).utilization = NpFloat.ninf ∧
    NpFloat.ninf ≠ NpFloat.nan := by
  constructor
  · norm_num [calc_stats_workstation_row, c5_workstation, NpFloat.div]
  · simp

/-- C8 counterexample: a workstation whose single recorded cycle waited 15
(a wait that started before the warm-up cutoff) against a post-warm-up window
of 10 reports utilization `(10 - 15) / 10 = -1/2`, outside `[0, 1]`; the
cycle fits inside the horizon (wait 15 + processing 1 ≤ 20), so the history
is one a run can produce. -/
theorem utilization_below_zero_counterexample :
    (calc_stats_workstation_row c8_workstation 0 20 10).utilization =
      NpFloat.fin (-(1 / 2)) ∧
    ¬ (0 : ℚ) ≤ -(1 / 2) ∧
    c8_workstation.wait_time.sum + c8_workstation.processing_time.sum ≤ 20 := by
  refine ⟨?_, by norm_num, ?_⟩
  · norm_num [calc_stats_workstation_row, c8_workstation, NpFloat.div]
  · norm_num [c8_workstation]

/-- Utilization reported for a workstation with at least one completed
assembly: the division at runanalysis.py line 64. -/
theorem workstation_row_utilization (workstation : Workstation) (iteration : ℕ)
    (sim_duration start_recording : ℚ)
    (hw : workstation.total_amount_assembled ≠ 0) :
    (calc_stats_workstation_row workstation iteration sim_duration start_recording).utilization =
      NpFloat.div
        (NpFloat.fin ((sim_duration - start_recording) - workstation.wait_time.sum))
        (NpFloat.fin (sim_duration - start_recording)) := by
  simp only [calc_stats_workstation_row, if_neg hw]

/-- Utilization reported in every inspector row: the division at
runanalysis.py line 120, identical across the two per-component branches. -/
theorem inspector_row_utilization (inspector : Inspector) (component : Component)
    (iteration : ℕ) (sim_duration start_recording : ℚ) :
    (calc_stats_inspector_row inspector iteration sim_duration start_recording component).utilization =
      NpFloat.div
        (NpFloat.fin ((sim_duration - start_recording) - inspector.wait_time.sum))
        (NpFloat.fin (sim_duration - start_recording)) := by
  unfold calc_stats_inspector_row
  by_cases hi : inspector.total_amount_inspected component = 0 <;> simp [hi]

/-- numpy division of `0 - S` by a zero window: NaN when `S = 0`, `-inf` when
`S > 0`, `+inf` when `S < 0`. -/
theorem div_fin_zero_cases (S : ℚ) :
    NpFloat.div (NpFloat.fin (0 - S)) (NpFloat.fin 0) =
      (if S = 0 then NpFloat.nan else if S > 0 then NpFloat.ninf else NpFloat.pinf) := by
  simp only [NpFloat.div, zero_sub, neg_eq_zero, neg_pos, gt_iff_lt, if_pos rfl]
  rcases lt_trichotomy S 0 with h | h | h
  · simp [h, h.ne, not_lt_of_gt h]
  · simp [h]
  · simp [h, h.ne.symm, not_lt_of_gt h]

/-- numpy division reduces to exact rational division when the denominator is
a positive rational. -/
theorem div_fin_pos_bounds (S W : ℚ) (hW : 0 < W) :
    NpFloat.div (NpFloat.fin (W - S)) (NpFloat.fin W) = NpFloat.fin ((W - S) / W) := by
  simp [NpFloat.div, hW.ne.symm]


/-- C4 (amended): for a workstation with zero completed assemblies the row
carries the `(np.nan,)` tuples as mean and variance, throughput 0, and total
idle time `(horizon - warm-up) - start` — the full post-warm-up window only
when the workstation never began an assembly (`start = 0`); for an
(inspector, component) pair with zero completed count the row reports NaN
mean and variance (the tuples coerced by `pd.to_numeric`) and throughput 0,
while its total idle time is the sum of the inspector-wide wait samples, not
the post-warm-up window. -/
theorem zero_cycle_row_fields (workstation : Workstation) (inspector : Inspector)
    (component : Component) (iteration : ℕ) (sim_duration start_recording : ℚ)
    (hw : workstation.total_amount_assembled = 0)
    (hi : inspector.total_amount_inspected component = 0)
    (hc : component ∈ inspector.components) :
    (calc_stats_workstation_row workstation iteration sim_duration start_recording).processing_time_mean =
        PyVal.tuple1 NpFloat.nan ∧
    (calc_stats_workstation_row workstation iteration sim_duration start_recording).processing_time_variance =
        PyVal.tuple1 NpFloat.nan ∧
    (calc_stats_workstation_row workstation iteration sim_duration start_recording).throughput = 0 ∧
    (calc_stats_workstation_row workstation iteration sim_duration start_recording).total_idle_time =
        NpFloat.fin ((sim_duration - start_recording) - workstation.start) ∧
    calc_stats_inspector_row inspector iteration sim_duration start_recording component ∈
      calc_stats_inspector_rows inspector iteration sim_duration start_recording ∧
    (calc_stats_inspector_row inspector iteration sim_duration start_recording
        component).component_inspection_time_mean = NpFloat.nan ∧
    (calc_stats_inspector_row inspector iteration sim_duration start_recording
        component).component_inspection_time_variance = NpFloat.nan ∧
    (calc_stats_inspector_row inspector iteration sim_duration start_recording
        component).component_throughput = 0 ∧
    (calc_stats_inspector_row inspector iteration sim_duration start_recording
        component).total_idle_time = NpFloat.fin inspector.wait_time.sum := by
  refine ⟨?_, ?_, ?_, ?_, ?_, ?_, ?_, ?_, ?_⟩
  · simp [calc_stats_workstation_row, hw]
  · simp [calc_stats_workstation_row, hw]
  · simp [calc_stats_workstation_row, hw]
  · simp [calc_stats_workstation_row, hw]
  · exact List.mem_map_of_mem _ hc
  · simp [calc_stats_inspector_row, hi, pd_to_numeric_coerce]
  · simp [calc_stats_inspector_row, hi, pd_to_numeric_coerce]
  · simp [calc_stats_inspector_row, hi]
  · simp [calc_stats_inspector_row, hi]

/-- C5 (amended): when the horizon equals the warm-up cutoff the statistics
computation does not raise (numpy float division is total), but for an entity
with at least one completed cycle it reports utilization NaN only when the
entity total idle time is 0; it reports `-inf` when the idle time is
positive (and `+inf` when negative). -/
theorem zero_window_utilization (workstation : Workstation) (inspector : Inspector)
    (component : Component) (iteration : ℕ) (sim_duration start_recording : ℚ)
    (hD : sim_duration = start_recording)
    (hw : workstation.total_amount_assembled ≠ 0) :
    (calc_stats_workstation_row workstation iteration sim_duration start_recording).utilization =
      (if workstation.wait_time.sum = 0 then NpFloat.nan
       else if workstation.wait_time.sum > 0 then NpFloat.ninf else NpFloat.pinf) ∧
    (calc_stats_inspector_row inspector iteration sim_duration start_recording
        component).utilization =
      (if inspector.wait_time.sum = 0 then NpFloat.nan
       else if inspector.wait_time.sum > 0 then NpFloat.ninf else NpFloat.pinf) := by
  subst hD
  constructor
  · rw [workstation_row_utilization _ _ _ _ hw, sub_self, div_fin_zero_cases]
  · rw [inspector_row_utilization, sub_self, div_fin_zero_cases]

/-- C8 (amended): for every entity with at least one completed cycle,
nonnegative wait samples and a positive post-warm-up window, the reported
utilization is `(window - total_idle) / window`; it is always at most 1, and
it is nonnegative — hence in `[0, 1]` — exactly under the extra premise that
the recorded idle total does not exceed the window (violated when a recorded
wait straddles the warm-up cutoff, as in the counterexample). -/
theorem utilization_formula_and_bounds (workstation : Workstation) (inspector : Inspector)
    (component : Component) (iteration : ℕ) (sim_duration start_recording : ℚ)
    (hw : workstation.total_amount_assembled ≠ 0)
    (hwin : 0 < sim_duration - start_recording)
    (hws : ∀ x ∈ workstation.wait_time, (0 : ℚ) ≤ x)
    (hins : ∀ x ∈ inspector.wait_time, (0 : ℚ) ≤ x) :
    (calc_stats_workstation_row workstation iteration sim_duration start_recording).utilization =
      NpFloat.fin (((sim_duration - start_recording) - workstation.wait_time.sum) /
        (sim_duration - start_recording)) ∧
    ((sim_duration - start_recording) - workstation.wait_time.sum) /
        (sim_duration - start_recording) ≤ 1 ∧
    (workstation.wait_time.sum ≤ sim_duration - start_recording →
      0 ≤ ((sim_duration - start_recording) - workstation.wait_time.sum) /
        (sim_duration - start_recording)) ∧
    (calc_stats_inspector_row inspector iteration sim_duration start_recording
        component).utilization =
      NpFloat.fin (((sim_duration - start_recording) - inspector.wait_time.sum) /
        (sim_duration - start_recording)) ∧
    ((sim_duration - start_recording) - inspector.wait_time.sum) /
        (sim_duration - start_recording) ≤ 1 ∧
    (inspector.wait_time.sum ≤ sim_duration - start_recording →
      0 ≤ ((sim_duration - start_recording) - inspector.wait_time.sum) /
        (sim_duration - start_recording)) := by
  refine ⟨?_, ?_, ?_, ?_, ?_, ?_⟩
  · rw [workstation_row_utilization _ _ _ _ hw, div_fin_pos_bounds _ _ hwin]
  · exact (div_le_one hwin).2 (sub_le_self _ (List.sum_nonneg hws))
  · exact fun h => div_nonneg (sub_nonneg.2 h) hwin.le
  · rw [inspector_row_utilization, div_fin_pos_bounds _ _ hwin]
  · exact (div_le_one hwin).2 (sub_le_self _ (List.sum_nonneg hins))
  · exact fun h => div_nonneg (sub_nonneg.2 h) hwin.le


/-- Witness: C4 amended claim applied to the concrete zero-cycle entities. -/
theorem zero_cycle_row_fields_witness :
    (calc_stats_workstation_row c4_workstation 0 20 10).processing_time_mean =
        PyVal.tuple1 NpFloat.nan ∧
    (calc_stats_workstation_row c4_workstation 0 20 10).processing_time_variance =
        PyVal.tuple1 NpFloat.nan ∧
    (calc_stats_workstation_row c4_workstation 0 20 10).throughput = 0 ∧
    (calc_stats_workstation_row c4_workstation 0 20 10).total_idle_time =
        NpFloat.fin ((20 - 10) - c4_workstation.start) ∧
    calc_stats_inspector_row c4_inspector 0 20 10 Component.C2 ∈
      calc_stats_inspector_rows c4_inspector 0 20 10 ∧
    (calc_stats_inspector_row c4_inspector 0 20 10
        Component.C2).component_inspection_time_mean = NpFloat.nan ∧
    (calc_stats_inspector_row c4_inspector 0 20 10
        Component.C2).component_inspection_time_variance = NpFloat.nan ∧
    (calc_stats_inspector_row c4_inspector 0 20 10 Component.C2).component_throughput = 0 ∧
    (calc_stats_inspector_row c4_inspector 0 20 10 Component.C2).total_idle_time =
        NpFloat.fin c4_inspector.wait_time.sum :=
  zero_cycle_row_fields c4_workstation c4_inspector Component.C2 0 20 10 rfl rfl
    (by simp [c4_inspector])

/-- Witness: C5 amended claim applied at horizon = warm-up = 10. -/
theorem zero_window_utilization_witness :
    (calc_stats_workstation_row c5_workstation 0 10 10).utilization =
      (if c5_workstation.wait_time.sum = 0 then NpFloat.nan
       else if c5_workstation.wait_time.sum > 0 then NpFloat.ninf else NpFloat.pinf) ∧
    (calc_stats_inspector_row c5_inspector 0 10 10 Component.C2).utilization =
      (if c5_inspector.wait_time.sum = 0 then NpFloat.nan
       else if c5_inspector.wait_time.sum > 0 then NpFloat.ninf else NpFloat.pinf) :=
  zero_window_utilization c5_workstation c5_inspector Component.C2 0 10 10 rfl
    (by norm_num [c5_workstation])

/-- Witness: C8 amended claim at a history with utilization 7/10. -/
theorem utilization_formula_and_bounds_witness :
    (calc_stats_workstation_row c8_ok_workstation 0 20 10).utilization =
      NpFloat.fin (((20 - 10) - c8_ok_workstation.wait_time.sum) / (20 - 10)) ∧
    ((20 - 10) - c8_ok_workstation.wait_time.sum) / ((20 : ℚ) - 10) ≤ 1 ∧
    (c8_ok_workstation.wait_time.sum ≤ (20 : ℚ) - 10 →
      0 ≤ ((20 - 10) - c8_ok_workstation.wait_time.sum) / ((20 : ℚ) - 10)) ∧
    (calc_stats_inspector_row c8_ok_inspector 0 20 10 Component.C2).utilization =
      NpFloat.fin (((20 - 10) - c8_ok_inspector.wait_time.sum) / (20 - 10)) ∧
    ((20 - 10) - c8_ok_inspector.wait_time.sum) / ((20 : ℚ) - 10) ≤ 1 ∧
    (c8_ok_inspector.wait_time.sum ≤ (20 : ℚ) - 10 →
      0 ≤ ((20 - 10) - c8_ok_inspector.wait_time.sum) / ((20 : ℚ) - 10)) :=
  utilization_formula_and_bounds c8_ok_workstation c8_ok_inspector Component.C2 0 20 10
    (by norm_num [c8_ok_workstation]) (by norm_num)
    (by norm_num [c8_ok_workstation]) (by norm_num [c8_ok_inspector])

/-- Walking the pending put queue keeps the level within `[0, capacity]` and
queue entries nonnegative. -/
theorem trigger_put_bounds (capacity : ℤ) (q : List ℤ) : ∀ level : ℤ,
    0 ≤ level → level ≤ capacity → (∀ n ∈ q, 0 ≤ n) →
    0 ≤ (trigger_put capacity level q).1 ∧ (trigger_put capacity level q).1 ≤ capacity ∧
      ∀ n ∈ (trigger_put capacity level q).2.1, 0 ≤ n := by
  induction q with
  | nil =>
    intro level h0 h1 _
    exact ⟨h0, h1, by simp [trigger_put]⟩
  | cons n rest ih =>
    intro level h0 h1 hq
    have hn : 0 ≤ n := hq n (List.mem_cons_self _ _)
    have hrest : ∀ m ∈ rest, 0 ≤ m := fun m hm => hq m (List.mem_cons_of_mem _ hm)
    by_cases h : capacity - level ≥ n
    · have hb := ih (level + n) (by linarith) (by linarith) hrest
      simp only [trigger_put, if_pos h]
      exact ⟨hb.1, hb.2.1, hb.2.2⟩
    · simp only [trigger_put, if_neg h]
      exact ⟨h0, h1, hq⟩

/-- Walking the pending get queue keeps the level within `[0, level]` and
queue entries nonnegative. -/
theorem trigger_get_bounds (q : List ℤ) : ∀ level : ℤ,
    0 ≤ level → (∀ n ∈ q, 0 ≤ n) →
    0 ≤ (trigger_get level q).1 ∧ (trigger_get level q).1 ≤ level ∧
      ∀ n ∈ (trigger_get level q).2.1, 0 ≤ n := by
  induction q with
  | nil =>
    intro level h0 _
    exact ⟨h0, le_refl _, by simp [trigger_get]⟩
  | cons n rest ih =>
    intro level h0 hq
    have hn : 0 ≤ n := hq n (List.mem_cons_self _ _)
    have hrest : ∀ m ∈ rest, 0 ≤ m := fun m hm => hq m (List.mem_cons_of_mem _ hm)
    by_cases h : level ≥ n
    · have hb := ih (level - n) (by linarith) hrest
      simp only [trigger_get, if_pos h]
      exact ⟨hb.1, le_trans hb.2.1 (by linarith), hb.2.2⟩
    · simp only [trigger_get, if_neg h]
      exact ⟨h0, le_refl _, hq⟩

/-- A `put` preserves buffer well-formedness and the capacity. -/
theorem put_preserves_inv (b : Buffer) (n : ℤ) (hb : BufferInv b) (hn : 0 ≤ n) :
    BufferInv (b.put n) ∧ (b.put n).capacity = b.capacity := by
  obtain ⟨h0, h1, hp, hg⟩ := hb
  have hq : ∀ m ∈ b.put_queue ++ [n], 0 ≤ m := by
    intro m hm
    rcases List.mem_append.1 hm with h | h
    · exact hp m h
    · rw [List.mem_singleton] at h; subst h; exact hn
  have hput := trigger_put_bounds b.capacity (b.put_queue ++ [n]) b.level h0 h1 hq
  have hget := trigger_get_bounds b.get_queue
    (trigger_put b.capacity b.level (b.put_queue ++ [n])).1 hput.1 hg
  exact ⟨⟨hget.1, le_trans hget.2.1 hput.2.1, hput.2.2, hget.2.2⟩, rfl⟩

/-- A `get` preserves buffer well-formedness and the capacity. -/
theorem get_preserves_inv (b : Buffer) (n : ℤ) (hb : BufferInv b) (hn : 0 ≤ n) :
    BufferInv (b.get n) ∧ (b.get n).capacity = b.capacity := by
  obtain ⟨h0, h1, hp, hg⟩ := hb
  have hq : ∀ m ∈ b.get_queue ++ [n], 0 ≤ m := by
    intro m hm
    rcases List.mem_append.1 hm with h | h
    · exact hg m h
    · rw [List.mem_singleton] at h; subst h; exact hn
  have hget := trigger_get_bounds (b.get_queue ++ [n]) b.level h0 hq
  have hput := trigger_put_bounds b.capacity b.put_queue
    (trigger_get b.level (b.get_queue ++ [n])).1 hget.1 (le_trans hget.2.1 h1) hp
  exact ⟨⟨hput.1, hput.2.1, hput.2.2, hget.2.2⟩, rfl⟩

/-- Any sequence of put/get operations preserves buffer well-formedness and
the capacity. -/
theorem applyOps_preserves_inv (ops : List BufOp) : ∀ b : Buffer, BufferInv b →
    (∀ op ∈ ops, 0 ≤ op.amount) →
    BufferInv (b.applyOps ops) ∧ (b.applyOps ops).capacity = b.capacity := by
  induction ops with
  | nil => intro b hb _; exact ⟨hb, rfl⟩
  | cons op rest ih =>
    intro b hb hops
    have hop : 0 ≤ op.amount := hops op (List.mem_cons_self _ _)
    have h1 : BufferInv (b.apply op) ∧ (b.apply op).capacity = b.capacity := by
      cases op with
      | put n => exact put_preserves_inv b n hb hop
      | get n => exact get_preserves_inv b n hb hop
    have h2 := ih (b.apply op) h1.1 (fun o ho => hops o (List.mem_cons_of_mem _ ho))
    refine ⟨h2.1, ?_⟩
    rw [show b.applyOps (op :: rest) = (b.apply op).applyOps rest from rfl, h2.2, h1.2]

/-- C2: starting from any buffer with `0 ≤ level ≤ capacity` and no pending
requests (as every buffer of a replication starts: `init=0`), no sequence of
put and get operations — however they interleave or block — drives the level
above the capacity or below zero. -/
theorem buffer_level_in_bounds (b : Buffer) (ops : List BufOp)
    (hlo : 0 ≤ b.level) (hhi : b.level ≤ b.capacity)
    (hput : b.put_queue = []) (hget : b.get_queue = [])
    (hops : ∀ op ∈ ops, 0 ≤ op.amount) :
    0 ≤ (b.applyOps ops).level ∧ (b.applyOps ops).level ≤ b.capacity := by
  have hb : BufferInv b := ⟨hlo, hhi, by simp [hput], by simp [hget]⟩
  have h := applyOps_preserves_inv ops b hb hops
  exact ⟨h.1.1, h.2 ▸ h.1.2.1⟩

/-- Witness: the spec's capacity-2 scenario — three puts then a get; the
third put blocks, the get releases it, and the level stays within bounds. -/
theorem buffer_level_in_bounds_witness :
    0 ≤ ((mkBuffer "w1c1" Component.C1).applyOps
        [BufOp.put 1, BufOp.put 1, BufOp.put 1, BufOp.get 1]).level ∧
    ((mkBuffer "w1c1" Component.C1).applyOps
        [BufOp.put 1, BufOp.put 1, BufOp.put 1, BufOp.get 1]).level ≤
      (mkBuffer "w1c1" Component.C1).capacity :=
  buffer_level_in_bounds _ _ (by norm_num [mkBuffer])
    (by norm_num [mkBuffer, BUFFER_SIZE]) rfl rfl (by decide)


/-- A fold of `min` over buffer levels never exceeds its initial value. -/
theorem foldl_min_le (t : List Buffer) : ∀ v : ℤ,
    t.foldl (fun m x => min m x.level) v ≤ v := by
  induction t with
  | nil => intro v; simp
  | cons x xs ih =>
    intro v
    rw [List.foldl_cons]
    exact le_trans (ih _) (min_le_left _ _)


/-- The one-pass strict-lt scan started at `b` returns the first element of
`b :: t` whose level is the minimum level of `b :: t`. -/
theorem most_empty_fold_find (t : List Buffer) : ∀ b : Buffer,
    some (t.foldl (fun acc x => if x.level < acc.level then x else acc) b) =
      (b :: t).find? (fun x => x.level == t.foldl (fun m y => min m y.level) b.level) := by
  induction t with
  | nil =>
    intro b
    simp [List.find?]
  | cons x xs ih =>
    intro b
    rw [List.foldl_cons, List.foldl_cons]
    have hpick : (if x.level < b.level then x else b).level = min b.level x.level := by
      by_cases h : x.level < b.level
      · simp [h, min_eq_right h.le]
      · simp [h, min_eq_left (not_lt.1 h)]
    have hih := ih (if x.level < b.level then x else b)
    rw [hpick] at hih
    rw [hih]
    set M := xs.foldl (fun m y => min m y.level) (min b.level x.level) with hM
    have hm : M ≤ min b.level x.level := foldl_min_le xs _
    by_cases h : x.level < b.level
    · have hne : ¬ b.level = M := ne_of_gt (lt_of_le_of_lt (le_trans hm (min_le_right _ _)) h)
      have e1 : (b :: x :: xs).find? (fun z => z.level == M) =
          (x :: xs).find? (fun z => z.level == M) :=
        List.find?_cons_of_neg _ (by simp only [beq_iff_eq]; exact hne)
      rw [if_pos h, e1]
    · have hble : b.level ≤ x.level := not_lt.1 h
      rw [if_neg h]
      by_cases hbm : b.level = M
      · have hb : ((fun z : Buffer => z.level == M) b : Bool) = true := by
          simp only [beq_iff_eq]; exact hbm
        have e1 : (b :: x :: xs).find? (fun z => z.level == M) = some b :=
          List.find?_cons_of_pos _ (by exact hb)
        have e2 : (b :: xs).find? (fun z => z.level == M) = some b :=
          List.find?_cons_of_pos _ (by exact hb)
        rw [e1, e2]
      · have hmb : M < b.level :=
          lt_of_le_of_ne (le_trans hm (min_le_left _ _)) (fun e => hbm e.symm)
        have hxne : ¬ x.level = M := ne_of_gt (lt_of_lt_of_le hmb hble)
        have e1 : (b :: x :: xs).find? (fun z => z.level == M) =
            (x :: xs).find? (fun z => z.level == M) :=
          List.find?_cons_of_neg _ (by simp only [beq_iff_eq]; exact hbm)
        have e2 : (x :: xs).find? (fun z => z.level == M) =
            xs.find? (fun z => z.level == M) :=
          List.find?_cons_of_neg _ (by simp only [beq_iff_eq]; exact hxne)
        have e3 : (b :: xs).find? (fun z => z.level == M) =
            xs.find? (fun z => z.level == M) :=
          List.find?_cons_of_neg _ (by simp only [beq_iff_eq]; exact hbm)
        rw [e1, e2, e3]

/-- C6: the scan of `add_component_to_buffer_original_routing` selects
exactly the buffer the spec describes — the one of minimal current level,
and the earliest in priority order among ties (the first of the list whose
level equals the minimum, since only a strictly lower level replaces the
candidate). -/
theorem most_empty_buffer_selects_lowest (buffers : List Buffer) :
    most_empty_buffer buffers = select_lowest_level_spec buffers := by
  cases buffers with
  | nil => rfl
  | cons b t =>
    show some ((b :: t).foldl (fun acc x => if x.level < acc.level then x else acc) b) = _
    rw [List.foldl_cons, ite_self]
    simp only [select_lowest_level_spec, min_buffer_level]
    exact most_empty_fold_find t b

end AssemblyLine


